import Mathlib

set_option autoImplicit false

namespace NNTrainer

/-- Dimension descriptor of the external tensor contract: a (batch, channel,
height, width) tuple, mirroring TensorDim as used by weight.h and layer.h. -/
structure TensorDim where
  batch : Nat
  channel : Nat
  height : Nat
  width : Nat
deriving DecidableEq, Repr

/-- Number of elements described by a dimension. -/
def TensorDim.volume (d : TensorDim) : Nat := d.batch * d.channel * d.height * d.width

/-- External tensor contract: a tensor is either fully allocated (a dimension
together with a flat element buffer, elements taken in the rationals so that
arithmetic is exact) or in the empty, unallocated sentinel state (data none). -/
structure Tensor where
  dim : TensorDim
  data : Option (List ℚ)
deriving DecidableEq, Repr

/-- The default-constructed, empty tensor. -/
def Tensor.null : Tensor := ⟨⟨0, 0, 0, 0⟩, none⟩

instance : Inhabited Tensor := ⟨Tensor.null⟩

/-- The empty-state query of the tensor contract. -/
def Tensor.empty (t : Tensor) : Bool := t.data.isNone

/-- The deep-copy of the tensor contract: value-equal buffer; independence of
the copy is expressed by allocating the result in a fresh store cell. -/
def Tensor.clone (t : Tensor) : Tensor := t

/-- A zero-filled tensor of the given dimension. -/
def Tensor.zeros (d : TensorDim) : Tensor := ⟨d, some (List.replicate d.volume 0)⟩

/-- In-place scaled add of the tensor contract, this += alpha * m. Per the
error-handling policy of the spec, a dimension mismatch or an unallocated
operand fails with a status to the caller and mutates nothing, so the
receiving tensor is returned unchanged in those cases. -/
def Tensor.add_i (t : Tensor) (m : Tensor) (alpha : ℚ) : Tensor :=
  if t.empty || m.empty then t
  else if t.dim = m.dim then
    ⟨t.dim, some (List.zipWith (fun x y => x + alpha * y) (t.data.getD []) (m.data.getD []))⟩
  else t

/-- Heap of shared tensors: models the shared_ptr cells through which Var_Grad
holds its variable and gradient tensors. A reference is an index into the
cell list; reading an unallocated index yields the default empty tensor. -/
structure Store where
  cells : List Tensor
deriving DecidableEq, Repr

/-- A shared-tensor reference. -/
abbrev Ref := Nat

/-- Dereference a shared tensor. -/
def Store.read (σ : Store) (r : Ref) : Tensor := σ.cells.getD r Tensor.null

/-- Overwrite the tensor a reference points to (in-place mutation through a
shared pointer). -/
def Store.write (σ : Store) (r : Ref) (t : Tensor) : Store := ⟨σ.cells.set r t⟩

/-- Allocate a fresh cell holding t (make_shared) and return its reference. -/
def Store.alloc (σ : Store) (t : Tensor) : Store × Ref :=
  (⟨σ.cells ++ [t]⟩, σ.cells.length)

/-- WeightRegularizer enumeration as used by weight.h. -/
inductive WeightRegularizer where
  | NONE
  | L2NORM
  | UNKNOWN
deriving DecidableEq, Repr

/-- Initializer policy selector of the tensor contract (the concrete random
schemes are out of scope; only the tag matters to the claims). -/
inductive Initializer where
  | ZEROS
  | XAVIER_UNIFORM
  | HE_NORMAL
deriving DecidableEq, Repr

/-- Modelled from the spec: Var_Grad (declared in var_grad.h, which is not
among the provided sources) couples a dimension, a shared variable tensor, a
shared gradient tensor, the need_gradient flag, the alloc_now flag, the
initializer policy and a name. -/
structure VarGrad where
  dim : TensorDim
  var : Ref
  grad : Ref
  need_gradient : Bool
  alloc_now : Bool
  init : Initializer
  name : String
deriving DecidableEq, Repr

/-- Modelled from the spec: hasGradient reports whether this pair needs (and
may hold) a gradient tensor. -/
def VarGrad.hasGradient (v : VarGrad) : Bool := v.need_gradient

/-- Modelled from the spec: Var_Grad::allocateGradient materializes the
gradient tensor (a zero-filled accumulator of the pair dimension) unless
need_gradient is false or the gradient is already allocated. -/
def VarGrad.allocateGradient (σ : Store) (v : VarGrad) : Store :=
  if v.need_gradient then
    if (σ.read v.grad).empty then σ.write v.grad (Tensor.zeros v.dim) else σ
  else σ

/-- Modelled from the spec: Var_Grad::deallocateVariable releases the variable
tensor back to the empty state; idempotent. -/
def VarGrad.deallocateVariable (σ : Store) (v : VarGrad) : Store :=
  σ.write v.var Tensor.null

/-- Modelled from the spec: Var_Grad::deallocateGradient releases the gradient
tensor back to the empty state; idempotent. -/
def VarGrad.deallocateGradient (σ : Store) (v : VarGrad) : Store :=
  σ.write v.grad Tensor.null

/-- Modelled from the spec: Var_Grad::reset keeps the variable values exactly
when the new dimension equals the current one (otherwise the variable is
deallocated and must be re-allocated by the caller), always clears the
gradient, and replaces dimension, initializer and need_gradient in place. -/
def VarGrad.reset (σ : Store) (v : VarGrad) (d : TensorDim) (i : Initializer)
    (ng : Bool) : Store × VarGrad :=
  let σ1 := if d = v.dim then σ else VarGrad.deallocateVariable σ v
  let σ2 := VarGrad.deallocateGradient σ1 v
  (σ2, { v with dim := d, init := i, need_gradient := ng })

/-- Weight from weight.h: extends Var_Grad with a regularizer kind, its
constant factor, and the optimizer-state bank: opt_vars_dim is the registered
shape registry and opt_vars the materialized tensors, both held by value
(std::vector members, not shared pointers). -/
structure Weight extends VarGrad where
  regularizer : WeightRegularizer
  regularizer_constant : ℚ
  opt_vars : List Tensor
  opt_vars_dim : List TensorDim
deriving DecidableEq, Repr

/-- isWeightRegularizerL2Norm from weight.h: regularizer == L2NORM. -/
def Weight.isWeightRegularizerL2Norm (w : Weight) : Bool :=
  match w.regularizer with
  | WeightRegularizer.L2NORM => true
  | _ => false

/-- getRegularizationLoss from weight.h, parameterized by the external l2norm
kernel of the tensor contract: if (hasGradient() and isWeightRegularizerL2Norm())
return regularizer_constant * 0.5 * l2norm(variable), else return 0. As a pure
function of the store it can touch no state. -/
def Weight.getRegularizationLoss (w : Weight) (l2norm : Tensor → ℚ) (σ : Store) : ℚ :=
  if w.hasGradient && w.isWeightRegularizerL2Norm then
    w.regularizer_constant * (1 / 2) * l2norm (σ.read w.var)
  else 0

/-- calcRegularizationGradient from weight.h: when the regularizer is L2NORM,
performs grad->add_i(variable, regularizer_constant); the source has no
needs-gradient guard here, only the regularizer test. -/
def Weight.calcRegularizationGradient (σ : Store) (w : Weight) : Store :=
  if w.isWeightRegularizerL2Norm then
    σ.write w.grad ((σ.read w.grad).add_i (σ.read w.var) w.regularizer_constant)
  else σ

/-- applyGradient from weight.h: var->add_i(gradient, -lr), the vanilla
in-place descent step on the variable cell. -/
def Weight.applyGradient (σ : Store) (w : Weight) (lr : ℚ) : Store :=
  σ.write w.var ((σ.read w.var).add_i (σ.read w.grad) (-lr))

/-- clone from weight.h: starts from the default copy constructor (which
copies the shared var and grad references and copies the opt_vars and
opt_vars_dim vectors by value), then replaces var and grad by freshly
allocated deep copies when each is non-empty. -/
def Weight.clone (σ : Store) (w : Weight) : Store × Weight :=
  let s1 : Store × Weight :=
    if (σ.read w.var).empty then (σ, w)
    else
      let a := σ.alloc ((σ.read w.var).clone)
      (a.1, { w with var := a.2 })
  if (s1.1.read w.grad).empty then s1
  else
    let a := s1.1.alloc ((s1.1.read w.grad).clone)
    (a.1, { s1.2 with grad := a.2 })

/-- reset from weight.h: unconditionally stores the new regularizer kind and
constant, then delegates to Var_Grad::reset; the optimizer-state registry and
materialized tensors are not touched by this member. -/
def Weight.reset (σ : Store) (w : Weight) (d : TensorDim) (i : Initializer)
    (reg : WeightRegularizer) (reg_const : ℚ) (ng : Bool) : Store × Weight :=
  let w1 : Weight := { w with regularizer := reg, regularizer_constant := reg_const }
  let p := VarGrad.reset σ w1.toVarGrad d i ng
  (p.1, { w1 with toVarGrad := p.2 })

/-- clearOptimizerVariables from weight.h: clears both the materialized
tensors and the registered dimensions. -/
def Weight.clearOptimizerVariables (w : Weight) : Weight :=
  { w with opt_vars := [], opt_vars_dim := [] }

/-- addOptimizerVariable from weight.h: appends the dimension to the registry
only; no tensor is materialized. -/
def Weight.addOptimizerVariable (w : Weight) (d : TensorDim) : Weight :=
  { w with opt_vars_dim := w.opt_vars_dim ++ [d] }

/-- getOptimizerVariableRef from weight.h: opt_vars[idx] through the
unchecked vector subscript; an out-of-range index is undefined behavior in
the source and is modelled as yielding the default empty tensor. -/
def Weight.getOptimizerVariableRef (w : Weight) (idx : Nat) : Tensor :=
  w.opt_vars.getD idx Tensor.null

/-- Follows the words of the spec, for comparison with the code model above:
a bounds-checked lookup that fails (none) when the index is greater than or
equal to the number of materialized optimizer tensors. -/
def Weight.getOptimizerVariableRefChecked (w : Weight) (idx : Nat) : Option Tensor :=
  w.opt_vars.get? idx

/-- Modelled from the spec: Weight::allocateOptimizerVariables (defined in
weight.cpp, which is not among the provided sources) materializes one
zero-initialized tensor per registered dimension, in registration order. -/
def Weight.allocateOptimizerVariables (w : Weight) : Weight :=
  { w with opt_vars := w.opt_vars_dim.map Tensor.zeros }

/-- allocateGradient from weight.h: Var_Grad::allocateGradient followed by
allocateOptimizerVariables. -/
def Weight.allocateGradient (σ : Store) (w : Weight) : Store × Weight :=
  (VarGrad.allocateGradient σ w.toVarGrad, w.allocateOptimizerVariables)

/-- deallocateGradient from weight.h: Var_Grad::deallocateGradient followed by
opt_vars.clear(); the registered dimensions persist. -/
def Weight.deallocateGradient (σ : Store) (w : Weight) : Store × Weight :=
  (VarGrad.deallocateGradient σ w.toVarGrad, { w with opt_vars := [] })

/-- swap from weight.h: exchanges the Var_Grad base (modelled from the spec as
exchanging every base field, var_grad.h being absent from the sources) and
then the regularizer field only; regularizer_constant, opt_vars and
opt_vars_dim stay with their original owners. -/
def Weight.swap (lhs rhs : Weight) : Weight × Weight :=
  ({ lhs with toVarGrad := rhs.toVarGrad, regularizer := rhs.regularizer },
   { rhs with toVarGrad := lhs.toVarGrad, regularizer := lhs.regularizer })

/-- WeightIniType enumeration from layer.h. -/
inductive WeightIniType where
  | WEIGHT_LECUN_NORMAL
  | WEIGHT_LECUN_UNIFORM
  | WEIGHT_XAVIER_NORMAL
  | WEIGHT_XAVIER_UNIFORM
  | WEIGHT_HE_NORMAL
  | WEIGHT_HE_UNIFORM
  | WEIGHT_UNKNOWN
deriving DecidableEq, Repr

/-- Success status of the error taxonomy referenced by layer.h. -/
def ML_ERROR_NONE : Int := 0

/-- Invalid-parameter status of the error taxonomy referenced by layer.h. -/
def ML_ERROR_INVALID_PARAMETER : Int := -22

/-- Result of a layer initialization: the returned status together with the
observable layer state it establishes (allocated Weights, last_layer flag,
zero-bias flag and dimension). -/
structure LayerInitResult where
  status : Int
  weights : List Weight
  last_layer : Bool
  init_zero : Bool
  dim : TensorDim
deriving DecidableEq, Repr

/-- A fully-connected-style Weight allocated by a layer initialization. -/
def mkLayerWeight (d : TensorDim) (i : Initializer) (nm : String) : Weight :=
  { dim := d, var := 0, grad := 1, need_gradient := true, alloc_now := true,
    init := i, name := nm, regularizer := WeightRegularizer.NONE,
    regularizer_constant := 1, opt_vars := [], opt_vars_dim := [] }

/-- Map a layer weight-initialization scheme to an initializer tag. -/
def WeightIniType.toInitializer : WeightIniType → Initializer
  | WeightIniType.WEIGHT_XAVIER_UNIFORM => Initializer.XAVIER_UNIFORM
  | WeightIniType.WEIGHT_HE_NORMAL => Initializer.HE_NORMAL
  | _ => Initializer.ZEROS

/-- Modelled from the spec: the concrete Layer variants (input,
fully-connected, batch-normalization) implement the pure-virtual
Layer::initialize declared in layer.h; their defining .cpp files are not
among the provided sources. Per the spec, the call validates batch, height
and width, failing with ML_ERROR_INVALID_PARAMETER and allocating no Weights
when any is zero or negative; otherwise it records last_layer, init_zero and
the dimension and allocates the variant Weights with the given initializer
policy (fully-connected style: an height-by-width weight matrix and a
1-by-width bias). -/
def Layer.initialize (b h w : Int) (last iz : Bool) (wini : WeightIniType) :
    LayerInitResult :=
  if b ≤ 0 ∨ h ≤ 0 ∨ w ≤ 0 then
    { status := ML_ERROR_INVALID_PARAMETER, weights := [], last_layer := last,
      init_zero := iz, dim := ⟨0, 0, 0, 0⟩ }
  else
    { status := ML_ERROR_NONE,
      weights := [mkLayerWeight ⟨1, 1, h.toNat, w.toNat⟩ wini.toInitializer "FC:weight",
                  mkLayerWeight ⟨1, 1, 1, w.toNat⟩ wini.toInitializer "FC:bias"],
      last_layer := last, init_zero := iz,
      dim := ⟨b.toNat, 1, h.toNat, w.toNat⟩ }

/-- Helper: getD after set at the same index yields the written value in
range and the default out of range. -/
theorem listGetD_set_self {α : Type} : ∀ (l : List α) (i : Nat) (v d : α),
    (l.set i v).getD i d = if i < l.length then v else d
  | [], i, v, d => by cases i <;> simp [List.getD]
  | x :: xs, 0, v, d => by simp [List.getD]
  | x :: xs, i + 1, v, d => by
    simpa [List.getD_cons_succ, Nat.succ_lt_succ_iff] using
      listGetD_set_self xs i v d

/-- Helper: set does not disturb getD at a different index. -/
theorem listGetD_set_ne {α : Type} : ∀ (l : List α) (i j : Nat) (v d : α),
    i ≠ j → (l.set i v).getD j d = l.getD j d
  | [], _, _, _, _, _ => by simp
  | x :: xs, 0, 0, v, d, h => absurd rfl h
  | x :: xs, 0, j + 1, v, d, _ => by simp [List.getD_cons_succ]
  | x :: xs, i + 1, 0, v, d, _ => by simp [List.getD_cons_zero]
  | x :: xs, i + 1, j + 1, v, d, h => by
    simpa [List.getD_cons_succ] using
      listGetD_set_ne xs i j v d (fun he => h (congrArg Nat.succ he))

/-- Helper: writing back the value just read is the identity. -/
theorem listSet_getD_self {α : Type} : ∀ (l : List α) (i : Nat) (d : α),
    l.set i (l.getD i d) = l
  | [], i, d => by cases i <;> rfl
  | x :: xs, 0, d => by simp [List.getD_cons_zero]
  | x :: xs, i + 1, d => by
    simpa [List.getD_cons_succ] using listSet_getD_self xs i d

/-- Helper: getD into an appended singleton, below the original length. -/
theorem listGetD_append_lt {α : Type} : ∀ (l : List α) (t : α) (i : Nat) (d : α),
    i < l.length → (l ++ [t]).getD i d = l.getD i d
  | [], _, i, _, h => absurd h (by simp)
  | x :: xs, t, 0, d, _ => by simp [List.getD_cons_zero]
  | x :: xs, t, i + 1, d, h => by
    simpa [List.getD_cons_succ] using
      listGetD_append_lt xs t i d (Nat.lt_of_succ_lt_succ h)

/-- Helper: getD into an appended singleton, exactly at the original length. -/
theorem listGetD_append_len {α : Type} : ∀ (l : List α) (t : α) (d : α),
    (l ++ [t]).getD l.length d = t
  | [], t, d => rfl
  | x :: xs, t, d => by
    simp only [List.cons_append, List.length_cons, List.getD_cons_succ]
    exact listGetD_append_len xs t d

/-- Helper: getD past the end of the list yields the default. -/
theorem listGetD_ge {α : Type} : ∀ (l : List α) (i : Nat) (d : α),
    l.length ≤ i → l.getD i d = d
  | [], i, d, _ => by cases i <;> rfl
  | x :: xs, 0, d, h => absurd h (by simp)
  | x :: xs, i + 1, d, h => by
    simp only [List.getD_cons_succ]
    exact listGetD_ge xs i d (Nat.le_of_succ_le_succ h)

/-- Reading through a reference after writing it yields the written tensor
when the reference is valid. -/
theorem Store.read_write_self (σ : Store) (r : Ref) (t : Tensor)
    (h : r < σ.cells.length) : (σ.write r t).read r = t := by
  simp only [Store.read, Store.write, listGetD_set_self, h, if_pos]

/-- Writing one reference leaves every other reference unchanged. -/
theorem Store.read_write_ne (σ : Store) (r s : Ref) (t : Tensor)
    (h : r ≠ s) : (σ.write r t).read s = σ.read s := by
  simp only [Store.read, Store.write]
  exact listGetD_set_ne σ.cells r s t Tensor.null h

/-- Writing back the tensor just read is the identity on the store. -/
theorem Store.write_read_self (σ : Store) (r : Ref) :
    σ.write r (σ.read r) = σ := by
  cases σ with
  | mk cs =>
    simp only [Store.read, Store.write]
    exact congrArg Store.mk (listSet_getD_self cs r Tensor.null)

/-- Writing the empty tensor makes the reference read empty, whether or not
the reference is valid (an invalid reference already reads empty). -/
theorem Store.read_write_null (σ : Store) (r : Ref) :
    (σ.write r Tensor.null).read r = Tensor.null := by
  simp only [Store.read, Store.write, listGetD_set_self]
  split <;> rfl

/-- Allocation does not disturb existing valid references. -/
theorem Store.read_alloc_lt (σ : Store) (t : Tensor) (r : Ref)
    (h : r < σ.cells.length) : (σ.alloc t).1.read r = σ.read r := by
  simp only [Store.read, Store.alloc]
  exact listGetD_append_lt σ.cells t r Tensor.null h

/-- The fresh reference returned by allocation reads the allocated tensor. -/
theorem Store.read_alloc_self (σ : Store) (t : Tensor) :
    (σ.alloc t).1.read σ.cells.length = t := by
  simp only [Store.read, Store.alloc]
  exact listGetD_append_len σ.cells t Tensor.null

/-- A read that produces an allocated tensor can only come from a valid
reference: invalid references read the empty default. -/
theorem Store.valid_of_read_some (σ : Store) (r : Ref) (d : TensorDim)
    (a : List ℚ) (h : σ.read r = ⟨d, some a⟩) : r < σ.cells.length := by
  by_contra hge
  have hle : σ.cells.length ≤ r := Nat.le_of_not_lt hge
  have : σ.read r = Tensor.null := by
    simp only [Store.read]
    exact listGetD_ge σ.cells r Tensor.null hle
  rw [this] at h
  exact Option.noConfusion (congrArg Tensor.data h)

/-- add_i on an unallocated receiver fails without mutating: the receiver is
returned unchanged. -/
theorem Tensor.add_i_empty_left (t m : Tensor) (alpha : ℚ)
    (h : t.empty = true) : t.add_i m alpha = t := by
  simp [Tensor.add_i, h]

/-- add_i on allocated operands of equal dimension performs the element-wise
scaled add. -/
theorem Tensor.add_i_some (d : TensorDim) (a b : List ℚ) (alpha : ℚ) :
    Tensor.add_i ⟨d, some a⟩ ⟨d, some b⟩ alpha =
      ⟨d, some (List.zipWith (fun x y => x + alpha * y) a b)⟩ := by
  simp [Tensor.add_i, Tensor.empty]

/-- C1: for every Weight with need_gradient = false (whose gradient tensor is
therefore permanently empty, per the Var_Grad invariant of the spec),
getRegularizationLoss returns 0 and calcRegularizationGradient leaves the
store — hence the gradient and all other state — unchanged, for every
regularizer kind including L2NORM. The L2NORM branch does reach the add into
the gradient, but on the permanently-empty gradient that add fails without
mutating under the tensor contract. -/
theorem c1_no_gradient_noop (w : Weight) (l2norm : Tensor → ℚ) (σ : Store)
    (hng : w.need_gradient = false) (hempty : (σ.read w.grad).empty = true) :
    w.getRegularizationLoss l2norm σ = 0 ∧
    w.calcRegularizationGradient σ = σ := by
  constructor
  · simp [Weight.getRegularizationLoss, VarGrad.hasGradient, hng]
  · unfold Weight.calcRegularizationGradient
    by_cases hl2 : w.isWeightRegularizerL2Norm = true
    · rw [if_pos hl2, Tensor.add_i_empty_left _ _ _ hempty,
        Store.write_read_self]
    · rw [if_neg hl2]

/-- Scenario dimension 1x1x2x3 used by the concrete witnesses. -/
def dimS : TensorDim := ⟨1, 1, 2, 3⟩

/-- Concrete weight for the C1 witness: L2NORM regularizer, no gradient. -/
def w1c : Weight :=
  { dim := dimS, var := 0, grad := 1, need_gradient := false,
    alloc_now := true, init := Initializer.ZEROS, name := "w1",
    regularizer := WeightRegularizer.L2NORM, regularizer_constant := 2,
    opt_vars := [], opt_vars_dim := [] }

/-- Concrete store for the C1 witness: allocated variable, empty gradient. -/
def store1 : Store := ⟨[Tensor.zeros dimS, Tensor.null]⟩

/-- C1 witness: the theorem applied at the concrete L2NORM weight that needs
no gradient. -/
theorem c1_witness :
    w1c.getRegularizationLoss (fun _ => 7) store1 = 0 ∧
    w1c.calcRegularizationGradient store1 = store1 :=
  c1_no_gradient_noop w1c (fun _ => 7) store1 rfl rfl

/-- C3: getRegularizationLoss returns 0 when the weight has no gradient needs
or its regularizer is not L2-norm, and otherwise returns
regularizer_constant * 0.5 * l2norm(variable); it is a pure function of the
store and weight, so it leaves all state unchanged by construction. -/
theorem c3_regularization_loss_formula (w : Weight) (l2norm : Tensor → ℚ)
    (σ : Store) :
    ((w.need_gradient = false ∨ w.regularizer ≠ WeightRegularizer.L2NORM) →
      w.getRegularizationLoss l2norm σ = 0) ∧
    (w.need_gradient = true → w.regularizer = WeightRegularizer.L2NORM →
      w.getRegularizationLoss l2norm σ =
        w.regularizer_constant * (1 / 2) * l2norm (σ.read w.var)) := by
  constructor
  · intro h
    rcases h with h | h
    · simp [Weight.getRegularizationLoss, VarGrad.hasGradient, h]
    · have hf : w.isWeightRegularizerL2Norm = false := by
        unfold Weight.isWeightRegularizerL2Norm
        cases hr : w.regularizer <;> simp_all
      simp [Weight.getRegularizationLoss, hf]
  · intro h1 h2
    have ht : w.isWeightRegularizerL2Norm = true := by
      unfold Weight.isWeightRegularizerL2Norm
      rw [h2]
    simp [Weight.getRegularizationLoss, VarGrad.hasGradient, h1, ht]

/-- Concrete weight for the C3 witness: L2NORM, constant 3, needs gradient. -/
def w3c : Weight :=
  { dim := dimS, var := 0, grad := 1, need_gradient := true,
    alloc_now := true, init := Initializer.ZEROS, name := "w3",
    regularizer := WeightRegularizer.L2NORM, regularizer_constant := 3,
    opt_vars := [], opt_vars_dim := [] }

/-- Concrete store for the C3 witness. -/
def store3 : Store := ⟨[⟨dimS, some [1, 2, 3, 4, 5, 6]⟩, Tensor.zeros dimS]⟩

/-- Concrete l2norm kernel instance for the C3 witness. -/
def l2c : Tensor → ℚ := fun _ => 10

/-- C3 witness: the theorem applied at the concrete L2NORM weight with a
gradient need discharges to the exact loss formula. -/
theorem c3_witness :
    w3c.getRegularizationLoss l2c store3 =
      w3c.regularizer_constant * (1 / 2) * l2c (store3.read w3c.var) :=
  (c3_regularization_loss_formula w3c l2c store3).2 rfl rfl

/-- C10: swap exchanges the Var_Grad base state (variable, gradient,
dimension, name and the other base fields) and the regularizer kinds, but
leaves each regularizer_constant and each optimizer-state registry and
tensor bank with its original owner. -/
theorem c10_swap_frame (a b : Weight) :
    (Weight.swap a b).1.toVarGrad = b.toVarGrad ∧
    (Weight.swap a b).1.regularizer = b.regularizer ∧
    (Weight.swap a b).1.regularizer_constant = a.regularizer_constant ∧
    (Weight.swap a b).1.opt_vars = a.opt_vars ∧
    (Weight.swap a b).1.opt_vars_dim = a.opt_vars_dim ∧
    (Weight.swap a b).2.toVarGrad = a.toVarGrad ∧
    (Weight.swap a b).2.regularizer = a.regularizer ∧
    (Weight.swap a b).2.regularizer_constant = b.regularizer_constant ∧
    (Weight.swap a b).2.opt_vars = b.opt_vars ∧
    (Weight.swap a b).2.opt_vars_dim = b.opt_vars_dim :=
  ⟨rfl, rfl, rfl, rfl, rfl, rfl, rfl, rfl, rfl, rfl⟩

/-- The shapes of a zero-materialized optimizer bank match the registered
dimensions index-wise. -/
theorem map_dim_map_zeros : ∀ ds : List TensorDim,
    (ds.map Tensor.zeros).map Tensor.dim = ds
  | [] => rfl
  | x :: xs => by
    simp only [List.map_cons]
    rw [map_dim_map_zeros xs]
    rfl

/-- C4: for a Weight with allocated variable and gradient of the same shape,
applyGradient(lr) replaces the variable cell by variable + (-lr) * gradient
element-wise in place, and leaves the gradient cell and every other store
cell unchanged; the Weight record itself (gradient reference, regularizer
fields, name, optimizer state) is not touched by the operation, which
returns only the updated store. -/
theorem c4_apply_gradient (σ : Store) (w : Weight) (lr : ℚ) (d : TensorDim)
    (a g : List ℚ) (hv : σ.read w.var = ⟨d, some a⟩)
    (hg : σ.read w.grad = ⟨d, some g⟩) (hne : w.var ≠ w.grad) :
    (w.applyGradient σ lr).read w.var =
      ⟨d, some (List.zipWith (fun x y => x + (-lr) * y) a g)⟩ ∧
    (w.applyGradient σ lr).read w.grad = σ.read w.grad ∧
    ∀ r : Ref, r ≠ w.var → (w.applyGradient σ lr).read r = σ.read r := by
  have hvalid : w.var < σ.cells.length := Store.valid_of_read_some σ w.var d a hv
  unfold Weight.applyGradient
  rw [hv, hg, Tensor.add_i_some]
  refine ⟨Store.read_write_self σ w.var _ hvalid, ?_, ?_⟩
  · rw [Store.read_write_ne σ w.var w.grad _ hne]
    exact hg
  · intro r hr
    rw [Store.read_write_ne σ w.var r _ (fun he => hr he.symm)]

/-- Concrete weight for the C4 witness scenario of the spec: dimension
1x1x2x3, zero-initialized variable, regularizer none, needs gradient. -/
def w4c : Weight :=
  { dim := dimS, var := 0, grad := 1, need_gradient := true,
    alloc_now := true, init := Initializer.ZEROS, name := "w4",
    regularizer := WeightRegularizer.NONE, regularizer_constant := 1,
    opt_vars := [], opt_vars_dim := [] }

/-- Concrete store for the C4 witness: variable all zeros, gradient manually
set to all ones. -/
def store4 : Store :=
  ⟨[⟨dimS, some (List.replicate 6 0)⟩, ⟨dimS, some (List.replicate 6 1)⟩]⟩

/-- C4 witness: applying the theorem at the spec scenario — gradient all
ones, learning rate 0.1 — every element of the variable decreases by
exactly 1/10, and the gradient cell is untouched. -/
theorem c4_witness :
    (w4c.applyGradient store4 (1 / 10)).read w4c.var =
      ⟨dimS, some (List.replicate 6 (-(1 / 10)))⟩ ∧
    (w4c.applyGradient store4 (1 / 10)).read w4c.grad = store4.read w4c.grad := by
  have h := c4_apply_gradient store4 w4c (1 / 10) dimS
    (List.replicate 6 0) (List.replicate 6 1) rfl rfl (by decide)
  exact ⟨h.1.trans (by norm_num), h.2.1⟩

/-- C5: addOptimizerVariable appends to the shape registry without
materializing any tensor; registering shapes s1, s2, s3 and then calling
allocateGradient materializes exactly three optimizer tensors of those
shapes in order; for every weight the materialized bank after
allocateGradient matches the registry in length and index-wise shapes; and
clearOptimizerVariables empties both the registry and the bank. -/
theorem c5_optimizer_registry (σ : Store) (w : Weight)
    (s1 s2 s3 : TensorDim) (h : w.opt_vars_dim = []) :
    (((w.addOptimizerVariable s1).addOptimizerVariable s2).addOptimizerVariable
        s3).opt_vars = w.opt_vars ∧
    (((w.addOptimizerVariable s1).addOptimizerVariable s2).addOptimizerVariable
        s3).opt_vars_dim = [s1, s2, s3] ∧
    (Weight.allocateGradient σ
        (((w.addOptimizerVariable s1).addOptimizerVariable
          s2).addOptimizerVariable s3)).2.opt_vars.map Tensor.dim =
      [s1, s2, s3] ∧
    (Weight.allocateGradient σ
        (((w.addOptimizerVariable s1).addOptimizerVariable
          s2).addOptimizerVariable s3)).2.opt_vars.length = 3 ∧
    (∀ w2 : Weight,
      (Weight.allocateGradient σ w2).2.opt_vars.map Tensor.dim =
          w2.opt_vars_dim ∧
        (Weight.allocateGradient σ w2).2.opt_vars.length =
          w2.opt_vars_dim.length) ∧
    (∀ w2 : Weight, w2.clearOptimizerVariables.opt_vars = [] ∧
      w2.clearOptimizerVariables.opt_vars_dim = []) := by
  have hreg : (((w.addOptimizerVariable s1).addOptimizerVariable
      s2).addOptimizerVariable s3).opt_vars_dim = [s1, s2, s3] := by
    simp [Weight.addOptimizerVariable, h]
  refine ⟨rfl, hreg, (map_dim_map_zeros _).trans hreg, ?_, ?_,
    fun w2 => ⟨rfl, rfl⟩⟩
  · show ((((w.addOptimizerVariable s1).addOptimizerVariable
        s2).addOptimizerVariable s3).opt_vars_dim.map Tensor.zeros).length = 3
    rw [List.length_map, hreg]
    rfl
  · intro w2
    exact ⟨map_dim_map_zeros w2.opt_vars_dim, List.length_map _ _⟩

/-- C5 witness: the theorem applied at a concrete weight with an empty
registry and three concrete shapes. -/
theorem c5_witness :
    (Weight.allocateGradient store4
        (((w4c.addOptimizerVariable ⟨1, 1, 1, 1⟩).addOptimizerVariable
          ⟨1, 1, 1, 2⟩).addOptimizerVariable
          ⟨1, 1, 1, 3⟩)).2.opt_vars.map Tensor.dim =
      [⟨1, 1, 1, 1⟩, ⟨1, 1, 1, 2⟩, ⟨1, 1, 1, 3⟩] :=
  (c5_optimizer_registry store4 w4c ⟨1, 1, 1, 1⟩ ⟨1, 1, 1, 2⟩ ⟨1, 1, 1, 3⟩
    rfl).2.2.1

/-- C7: deallocateGradient clears the materialized optimizer tensors but
leaves the registered shape registry unchanged, so a subsequent
allocateGradient re-materializes exactly the registered shapes. -/
theorem c7_deallocate_gradient_frame (σ σ2 : Store) (w : Weight) :
    (Weight.deallocateGradient σ w).2.opt_vars = [] ∧
    (Weight.deallocateGradient σ w).2.opt_vars_dim = w.opt_vars_dim ∧
    (Weight.allocateGradient σ2
        (Weight.deallocateGradient σ w).2).2.opt_vars.map Tensor.dim =
      w.opt_vars_dim := by
  exact ⟨rfl, rfl, map_dim_map_zeros w.opt_vars_dim⟩

/-- Allocation grows the store by one cell. -/
theorem Store.alloc_length (σ : Store) (t : Tensor) :
    (σ.alloc t).1.cells.length = σ.cells.length + 1 := by
  simp [Store.alloc]

/-- Unfolding of clone on a weight whose variable and gradient are both
non-empty: two fresh cells are allocated holding the copied buffers, and the
returned weight points at them; every other field comes from the default
copy construction. -/
theorem clone_unfold (σ : Store) (w : Weight) (hg : w.grad < σ.cells.length)
    (hvne : (σ.read w.var).empty = false)
    (hgne : (σ.read w.grad).empty = false) :
    Weight.clone σ w =
      (((σ.alloc (σ.read w.var)).1.alloc (σ.read w.grad)).1,
       { w with var := σ.cells.length,
                grad := (σ.alloc (σ.read w.var)).1.cells.length }) := by
  have h2 : ((σ.alloc (σ.read w.var)).1.read w.grad) = σ.read w.grad :=
    Store.read_alloc_lt σ _ w.grad hg
  have hsnd : ∀ (τ : Store) (t : Tensor), (τ.alloc t).2 = τ.cells.length :=
    fun _ _ => rfl
  simp only [Weight.clone, Tensor.clone, hvne, h2, hgne, Bool.false_eq_true,
    if_false, hsnd]

/-- C2 amended: clone deep-copies a non-empty variable and gradient into
fresh cells — value-equal to the originals and independently mutable, so
that overwriting the cell of the clone does not change what the original
reads — and preserves the regularizer kind, regularizer constant and name;
the optimizer-state registry and materialized tensors are copied from the
original (not emptied), because clone starts from the default copy
constructor. -/
theorem c2_clone_amended (σ : Store) (w : Weight)
    (hv : w.var < σ.cells.length) (hg : w.grad < σ.cells.length)
    (hvne : (σ.read w.var).empty = false)
    (hgne : (σ.read w.grad).empty = false) :
    (Weight.clone σ w).1.read (Weight.clone σ w).2.var = σ.read w.var ∧
    (Weight.clone σ w).1.read (Weight.clone σ w).2.grad = σ.read w.grad ∧
    (Weight.clone σ w).2.var ≠ w.var ∧
    (Weight.clone σ w).2.grad ≠ w.grad ∧
    (∀ t : Tensor,
      ((Weight.clone σ w).1.write (Weight.clone σ w).2.var t).read w.var =
        σ.read w.var) ∧
    (∀ t : Tensor,
      ((Weight.clone σ w).1.write (Weight.clone σ w).2.grad t).read w.grad =
        σ.read w.grad) ∧
    (Weight.clone σ w).2.regularizer = w.regularizer ∧
    (Weight.clone σ w).2.regularizer_constant = w.regularizer_constant ∧
    (Weight.clone σ w).2.name = w.name ∧
    (Weight.clone σ w).2.opt_vars = w.opt_vars ∧
    (Weight.clone σ w).2.opt_vars_dim = w.opt_vars_dim := by
  rw [clone_unfold σ w hg hvne hgne]
  have hlen1 : (σ.alloc (σ.read w.var)).1.cells.length = σ.cells.length + 1 :=
    Store.alloc_length σ _
  have hvlt1 : w.var < (σ.alloc (σ.read w.var)).1.cells.length := by
    rw [hlen1]; exact Nat.lt_succ_of_lt hv
  have hglt1 : w.grad < (σ.alloc (σ.read w.var)).1.cells.length := by
    rw [hlen1]; exact Nat.lt_succ_of_lt hg
  have hrv : ((σ.alloc (σ.read w.var)).1.alloc (σ.read w.grad)).1.read
      σ.cells.length = σ.read w.var := by
    rw [Store.read_alloc_lt _ _ _ (by rw [hlen1]; exact Nat.lt_succ_self _)]
    exact Store.read_alloc_self σ _
  have hrg : ((σ.alloc (σ.read w.var)).1.alloc (σ.read w.grad)).1.read
      (σ.alloc (σ.read w.var)).1.cells.length = σ.read w.grad :=
    Store.read_alloc_self _ _
  have hrvkeep : ((σ.alloc (σ.read w.var)).1.alloc (σ.read w.grad)).1.read
      w.var = σ.read w.var := by
    rw [Store.read_alloc_lt _ _ _ hvlt1]
    exact Store.read_alloc_lt σ _ _ hv
  have hrgkeep : ((σ.alloc (σ.read w.var)).1.alloc (σ.read w.grad)).1.read
      w.grad = σ.read w.grad := by
    rw [Store.read_alloc_lt _ _ _ hglt1]
    exact Store.read_alloc_lt σ _ _ hg
  refine ⟨hrv, hrg, Nat.ne_of_gt hv, ?_, ?_, ?_, rfl, rfl, rfl, rfl, rfl⟩
  · show (σ.alloc (σ.read w.var)).1.cells.length ≠ w.grad
    rw [hlen1]
    exact Nat.ne_of_gt (Nat.lt_succ_of_lt hg)
  · intro t
    rw [Store.read_write_ne _ _ _ _ (Nat.ne_of_gt hv)]
    exact hrvkeep
  · intro t
    rw [Store.read_write_ne _ _ _ _ (by
      show (σ.alloc (σ.read w.var)).1.cells.length ≠ w.grad
      rw [hlen1]
      exact Nat.ne_of_gt (Nat.lt_succ_of_lt hg))]
    exact hrgkeep

/-- Concrete weight for C2: non-empty variable and gradient and one
materialized optimizer tensor with its registered shape. -/
def w2c : Weight :=
  { dim := dimS, var := 0, grad := 1, need_gradient := true,
    alloc_now := true, init := Initializer.ZEROS, name := "w2",
    regularizer := WeightRegularizer.L2NORM, regularizer_constant := 2,
    opt_vars := [Tensor.zeros ⟨1, 1, 1, 2⟩], opt_vars_dim := [⟨1, 1, 1, 2⟩] }

/-- Concrete store for C2: allocated variable and gradient buffers. -/
def store2 : Store :=
  ⟨[⟨dimS, some [1, 2, 3, 4, 5, 6]⟩, ⟨dimS, some [0, 0, 0, 0, 0, 0]⟩]⟩

/-- C2 counterexample: the clone of a weight holding a materialized optimizer
tensor carries that optimizer state over — the default copy construction
inside clone copies the opt_vars vector — so the optimizer state of the
clone is not empty, contradicting the claim. -/
theorem c2_counterexample :
    (Weight.clone store2 w2c).2.opt_vars = w2c.opt_vars ∧
    w2c.opt_vars ≠ [] :=
  ⟨rfl, List.cons_ne_nil _ _⟩

/-- C2 witness: the amended theorem applied at the concrete weight: the
cloned variable cell is value-equal to the original and sits at a fresh
reference. -/
theorem c2_witness :
    (Weight.clone store2 w2c).1.read (Weight.clone store2 w2c).2.var =
      store2.read w2c.var ∧
    (Weight.clone store2 w2c).2.var ≠ w2c.var := by
  have h := c2_clone_amended store2 w2c (by decide) (by decide) rfl rfl
  exact ⟨h.1, h.2.2.1⟩

/-- C6 amended: reset updates the regularizer kind and constant
unconditionally and applies the shape-preservation rule of the pair reset —
the variable values are kept exactly when the dimension is unchanged,
otherwise the variable is deallocated, and the gradient is always cleared —
but it leaves the optimizer-state registry and materialized tensors
unchanged rather than clearing them. -/
theorem c6_reset_amended (σ : Store) (w : Weight) (d : TensorDim)
    (i : Initializer) (reg : WeightRegularizer) (rc : ℚ) (ng : Bool)
    (hne : w.var ≠ w.grad) :
    (Weight.reset σ w d i reg rc ng).2.regularizer = reg ∧
    (Weight.reset σ w d i reg rc ng).2.regularizer_constant = rc ∧
    (Weight.reset σ w d i reg rc ng).2.dim = d ∧
    (Weight.reset σ w d i reg rc ng).2.need_gradient = ng ∧
    (d = w.dim →
      (Weight.reset σ w d i reg rc ng).1.read w.var = σ.read w.var) ∧
    (d ≠ w.dim →
      ((Weight.reset σ w d i reg rc ng).1.read w.var).empty = true) ∧
    ((Weight.reset σ w d i reg rc ng).1.read w.grad).empty = true ∧
    (Weight.reset σ w d i reg rc ng).2.opt_vars = w.opt_vars ∧
    (Weight.reset σ w d i reg rc ng).2.opt_vars_dim = w.opt_vars_dim := by
  refine ⟨rfl, rfl, rfl, rfl, ?_, ?_, ?_, rfl, rfl⟩
  · intro hd
    show ((if d = w.dim then σ else σ.write w.var Tensor.null).write w.grad
        Tensor.null).read w.var = σ.read w.var
    rw [if_pos hd, Store.read_write_ne _ _ _ _ (Ne.symm hne)]
  · intro hd
    show (((if d = w.dim then σ else σ.write w.var Tensor.null).write w.grad
        Tensor.null).read w.var).empty = true
    rw [if_neg hd, Store.read_write_ne _ _ _ _ (Ne.symm hne),
      Store.read_write_null]
    rfl
  · show (((if d = w.dim then σ else σ.write w.var Tensor.null).write w.grad
        Tensor.null).read w.grad).empty = true
    rw [Store.read_write_null]
    rfl

/-- Concrete weight for C6 with live optimizer state. -/
def w6c : Weight :=
  { dim := dimS, var := 0, grad := 1, need_gradient := true,
    alloc_now := true, init := Initializer.ZEROS, name := "w6",
    regularizer := WeightRegularizer.NONE, regularizer_constant := 1,
    opt_vars := [Tensor.zeros ⟨1, 1, 1, 2⟩], opt_vars_dim := [⟨1, 1, 1, 2⟩] }

/-- C6 counterexample: after reset, the materialized optimizer tensor and its
registered shape are still there — reset touches only the regularizer fields
and the Var_Grad base, so the claimed clearing of optimizer state is false. -/
theorem c6_counterexample :
    (Weight.reset store1 w6c dimS Initializer.ZEROS WeightRegularizer.L2NORM
        5 true).2.opt_vars ≠ [] ∧
    (Weight.reset store1 w6c dimS Initializer.ZEROS WeightRegularizer.L2NORM
        5 true).2.opt_vars_dim ≠ [] :=
  ⟨List.cons_ne_nil _ _, List.cons_ne_nil _ _⟩

/-- C6 witness: the amended theorem applied at the concrete weight: the new
regularizer fields are stored and the optimizer state is exactly the
original one. -/
theorem c6_witness :
    (Weight.reset store1 w6c dimS Initializer.ZEROS WeightRegularizer.L2NORM
        5 true).2.regularizer = WeightRegularizer.L2NORM ∧
    (Weight.reset store1 w6c dimS Initializer.ZEROS WeightRegularizer.L2NORM
        5 true).2.opt_vars = w6c.opt_vars := by
  have h := c6_reset_amended store1 w6c dimS Initializer.ZEROS
    WeightRegularizer.L2NORM 5 true (by decide)
  exact ⟨h.1, h.2.2.2.2.2.2.2.1⟩

/-- Helper: getD agrees with get for an in-range index. -/
theorem listGetD_lt {α : Type} : ∀ (l : List α) (i : Nat) (d : α)
    (h : i < l.length), l.getD i d = l.get ⟨i, h⟩
  | [], i, d, h => absurd h (by simp)
  | x :: xs, 0, d, _ => rfl
  | x :: xs, i + 1, d, h => by
    simp only [List.getD_cons_succ]
    exact listGetD_lt xs i d (Nat.lt_of_succ_lt_succ h)

/-- C8 amended: getOptimizerVariableRef returns the tensor at the registry
index when the index is in range, agreeing with a bounds-checked lookup;
when the index is greater than or equal to the number of materialized
tensors the source performs an unchecked vector subscript — undefined
behavior, modelled as the default empty tensor — so the call proceeds
without any bounds-check failure, while the checked lookup of the spec
fails. -/
theorem c8_get_optimizer_variable (w : Weight) (idx : Nat) :
    (∀ h : idx < w.opt_vars.length,
      w.getOptimizerVariableRef idx = w.opt_vars.get ⟨idx, h⟩ ∧
      w.getOptimizerVariableRefChecked idx = some (w.opt_vars.get ⟨idx, h⟩)) ∧
    (w.opt_vars.length ≤ idx →
      w.getOptimizerVariableRef idx = Tensor.null ∧
      w.getOptimizerVariableRefChecked idx = none) := by
  constructor
  · intro h
    exact ⟨listGetD_lt w.opt_vars idx Tensor.null h, List.get?_eq_get h⟩
  · intro h
    refine ⟨listGetD_ge w.opt_vars idx Tensor.null h, ?_⟩
    unfold Weight.getOptimizerVariableRefChecked
    exact List.get?_eq_none.mpr h

/-- Concrete weight for the C8 counterexample: registered shape but no
materialized optimizer tensors. -/
def w8c : Weight :=
  { dim := dimS, var := 0, grad := 1, need_gradient := true,
    alloc_now := true, init := Initializer.ZEROS, name := "w8",
    regularizer := WeightRegularizer.NONE, regularizer_constant := 1,
    opt_vars := [], opt_vars_dim := [⟨1, 1, 1, 4⟩] }

/-- C8 counterexample: at index 0 with zero materialized tensors — an index
greater than or equal to the bank length — the unchecked subscript of the
source proceeds and yields the default empty tensor instead of failing; the
bounds-checked lookup described by the claim would fail. -/
theorem c8_counterexample :
    w8c.opt_vars.length = 0 ∧
    w8c.getOptimizerVariableRef 0 = Tensor.null ∧
    w8c.getOptimizerVariableRefChecked 0 = none :=
  ⟨rfl, rfl, rfl⟩

/-- Concrete weight for the C8 witness: one materialized optimizer tensor. -/
def w8w : Weight :=
  { dim := dimS, var := 0, grad := 1, need_gradient := true,
    alloc_now := true, init := Initializer.ZEROS, name := "w8w",
    regularizer := WeightRegularizer.NONE, regularizer_constant := 1,
    opt_vars := [Tensor.zeros ⟨1, 1, 1, 2⟩], opt_vars_dim := [⟨1, 1, 1, 2⟩] }

/-- C8 witness: the amended theorem applied at a concrete in-range index. -/
theorem c8_witness :
    w8w.getOptimizerVariableRef 0 = Tensor.zeros ⟨1, 1, 1, 2⟩ ∧
    w8w.getOptimizerVariableRefChecked 0 = some (Tensor.zeros ⟨1, 1, 1, 2⟩) := by
  have h := (c8_get_optimizer_variable w8w 0).1 (by decide)
  exact h

/-- C9: the layer initialization, modelled from the spec (the defining
sources of the concrete layer variants are not provided), returns the
invalid-parameter status and allocates no Weights whenever batch, height or
width is zero or negative. -/
theorem c9_initialize_rejects_nonpositive (b h w : Int) (last iz : Bool)
    (wini : WeightIniType) (hbad : b ≤ 0 ∨ h ≤ 0 ∨ w ≤ 0) :
    ( Layer.initialize b h w last iz wini).status =
      ML_ERROR_INVALID_PARAMETER ∧
    ( Layer.initialize b h w last iz wini).weights = [] := by
  unfold Layer.initialize
  rw [if_pos hbad]
  exact ⟨rfl, rfl⟩

/-- C9 witness: the fully-connected scenario of the spec, with width given
as 0: initialization fails with the invalid-parameter status and allocates
nothing. -/
theorem c9_witness :
    ( Layer.initialize 4 1 0 false true
        WeightIniType.WEIGHT_XAVIER_UNIFORM).status =
      ML_ERROR_INVALID_PARAMETER ∧
    ( Layer.initialize 4 1 0 false true
        WeightIniType.WEIGHT_XAVIER_UNIFORM).weights = [] :=
  c9_initialize_rejects_nonpositive 4 1 0 false true
    WeightIniType.WEIGHT_XAVIER_UNIFORM (Or.inr (Or.inr (by norm_num)))

end NNTrainer
